import Mathlib

/-!
Shallow embedding of the Learning Memory & Temporal Analytics core of the
vocabulary-learning application (forgetting-curve engine, temporal pattern
engine, time-series analytics module).

Modelling conventions:
* JavaScript numbers are modelled as `ℚ` (all arithmetic the code performs on
  the reachable paths is exact decimal/rational arithmetic, except for
  `Math.exp`, `Math.log` and `Math.sqrt`, which are passed in as explicit
  function parameters `rexp`, `rlog`, `msqrt`).
* ISO-8601 timestamp strings are modelled by their epoch-millisecond value
  (`ℤ`), with calendar accessors (`getHours`, `getDay`, `getFullYear`, ...)
  computed in UTC via the standard civil-calendar conversion.  Comparison of
  ISO strings of this form agrees with comparison of the millisecond values.
* `new Date()` / `Date.now()` (the current wall clock) is passed in as an
  explicit parameter `now : ℤ`.
* `Math.round` rounds half toward positive infinity, exactly as Mathlib's
  `round` on `ℚ` (`round x = ⌊x + 1/2⌋`).
-/

/-- JS `Math.round(x * 100) / 100` (round to two decimal places). -/
def round2 (x : ℚ) : ℚ := ((round (x * 100) : ℤ) : ℚ) / 100

/-- JS `Math.round(x * 10000) / 10000` (round to four decimal places). -/
def round4 (x : ℚ) : ℚ := ((round (x * 10000) : ℤ) : ℚ) / 10000

/-- Milliseconds per day. -/
def msPerDay : ℤ := 86400000

/-- Day number since the Unix epoch of a UTC millisecond timestamp. -/
def epochDay (ms : ℤ) : ℤ := ms.fdiv msPerDay

/-- JS `new Date(ms).getHours()` in UTC. -/
def dateGetHours (ms : ℤ) : ℕ := ((ms.fdiv 3600000).emod 24).toNat

/-- JS `new Date(ms).getDay()` in UTC (0 = Sunday; the epoch was a Thursday). -/
def dateGetDay (ms : ℤ) : ℕ := ((epochDay ms + 4).emod 7).toNat

/-- Civil (year, month, day) from a day count since the epoch, proleptic
Gregorian calendar (standard days-to-civil conversion). -/
def civilFromDays (z0 : ℤ) : ℤ × ℤ × ℤ :=
  let z := z0 + 719468
  let era := z.fdiv 146097
  let doe := z - era * 146097
  let yoe := (doe - doe.fdiv 1460 + doe.fdiv 36524 - doe.fdiv 146096).fdiv 365
  let y := yoe + era * 400
  let doy := doe - (365 * yoe + yoe.fdiv 4 - yoe.fdiv 100)
  let mp := (5 * doy + 2).fdiv 153
  let d := doy - (153 * mp + 2).fdiv 5 + 1
  let m := mp + (if mp < 10 then 3 else (-9 : ℤ))
  (y + (if m ≤ 2 then 1 else 0), m, d)

/-- Day count since the epoch of a civil (year, month, day), inverse of
`civilFromDays`. -/
def daysFromCivil (y0 m d : ℤ) : ℤ :=
  let y := y0 - (if m ≤ 2 then 1 else 0)
  let era := y.fdiv 400
  let yoe := y - era * 400
  let doy := (153 * (m + (if 2 < m then -3 else (9 : ℤ))) + 2).fdiv 5 + d - 1
  let doe := yoe * 365 + yoe.fdiv 4 - yoe.fdiv 100 + doy
  era * 146097 + doe - 719468

/-- JS `new Date(ms).getFullYear()` in UTC. -/
def dateGetFullYear (ms : ℤ) : ℤ := (civilFromDays (epochDay ms)).1

/-- JS `new Date(ms).getMonth() + 1` in UTC (1-based month, as used by all
period-key computations in the source). -/
def dateGetMonth1 (ms : ℤ) : ℤ := (civilFromDays (epochDay ms)).2.1

/-- JS `new Date(ms).getDate()` in UTC (day of month). -/
def dateGetDate (ms : ℤ) : ℤ := (civilFromDays (epochDay ms)).2.2

/-- JS `String(n).padStart(2, '0')` for the integers produced by the date
accessors. -/
def pad2 (n : ℤ) : String := if 0 ≤ n ∧ n < 10 then ("0") ++ toString n else toString n

/-- The `YYYY-MM-DD` day key of a timestamp (`timestamp.split('T')[0]` on the
ISO string, equivalently the calendar-day key built by `getPeriodKey`). -/
def dayKeyOf (ms : ℤ) : String :=
  toString (dateGetFullYear ms) ++ ("-") ++ pad2 (dateGetMonth1 ms) ++ ("-") ++ pad2 (dateGetDate ms)

-- ============================================================================
-- Shared data model (src/types, `part_008`)
-- ============================================================================

/-- Types of metrics that can be tracked over time (`MetricType`). -/
inductive MetricType where
  | accuracy_rate
  | response_time
  | session_duration
  | words_per_minute
  | retention_rate
  | motivation_score
  | difficulty_preference
deriving DecidableEq

/-- The metadata record attached to a `LearningDataPoint`.  The engines only
ever consult the `word_id` entry of the free-form metadata map, so only that
key is modelled. -/
structure Metadata where
  word_id : Option String
deriving DecidableEq

/-- Time-series data point for learning patterns (`LearningDataPoint`). -/
structure LearningDataPoint where
  timestamp : ℤ
  metric_type : MetricType
  value : ℚ
  metadata : Option Metadata
deriving DecidableEq

/-- Study session record (`StudySession`); only the fields read by the
embedded services are modelled. -/
structure StudySession where
  date : ℤ
  duration_minutes : ℚ
  words_practiced : ℚ
deriving DecidableEq

/-- The spaced-repetition state embedded in `WordLearningMetrics`
(`spaced_repetition_data`). -/
structure SpacedRepetitionEntry where
  next_review_date : ℤ
  ease_factor : ℚ
  next_interval : ℚ
  repetition_number : ℚ
deriving DecidableEq

/-- Detailed word learning metrics for analytics (`WordLearningMetrics`). -/
structure WordLearningMetrics where
  word_id : String
  encounter_count : ℚ
  correct_count : ℚ
  incorrect_count : ℚ
  avg_response_time : ℚ
  first_seen : ℤ
  last_seen : ℤ
  confidence_score : ℚ
  retention_estimate : ℚ
  next_review_date : ℤ
  spaced_repetition_data : Option SpacedRepetitionEntry
deriving DecidableEq

-- ============================================================================
-- Forgetting Curve Analysis Engine (src/lib/analytics/forgettingCurveEngine.ts)
-- ============================================================================

namespace ForgettingCurveEngine

/-- Embeds `ForgettingCurveModel`. -/
structure ForgettingCurveModel where
  word_id : String
  initial_strength : ℚ
  decay_rate : ℚ
  stability_factor : ℚ
  retrieval_strength : ℚ
  optimal_interval : ℚ
  confidence_level : ℚ
deriving DecidableEq

/-- Embeds `ReviewPrediction.review_priority`. -/
inductive ReviewPriority where
  | urgent | due | optional | too_early
deriving DecidableEq

/-- Embeds `ReviewPrediction`. -/
structure ReviewPrediction where
  word_id : String
  success_probability : ℚ
  recommended_delay : ℚ
  difficulty_adjustment : ℚ
  review_priority : ReviewPriority
  reasoning : List String
deriving DecidableEq

/-- Embeds `SpacedRepetitionSchedule`. -/
structure SpacedRepetitionSchedule where
  word_id : String
  next_review_date : ℚ
  interval_days : ℚ
  ease_factor : ℚ
  repetition_number : ℚ
  last_quality : ℚ
deriving DecidableEq

/-- Engine constant `defaultDecayRate`. -/
def defaultDecayRate : ℚ := 0.1

/-- Engine constant `targetRetention`. -/
def targetRetention : ℚ := 0.85

/-- Engine constant `minInterval` (days). -/
def minInterval : ℚ := 1

/-- Engine constant `maxInterval` (days). -/
def maxInterval : ℚ := 365

/-- Embeds `getDaysBetween(start, end)`: `Math.ceil(|end - start| / 86400000)`. -/
def getDaysBetween (start stop : ℤ) : ℤ := ⌈(|stop - start| : ℚ) / 86400000⌉

/-- Embeds `getDaysSince(timestamp)` (single-argument overload): days between the
timestamp and the current clock `now`. -/
def getDaysSince (now : ℤ) (timestamp : ℤ) : ℤ := getDaysBetween timestamp now

/-- Whether a data point's `metadata?.word_id` strictly equals the given word
id (`dp.metadata?.word_id === wordId`). -/
def matchesWord (wordId : String) (dp : LearningDataPoint) : Bool :=
  dp.metadata.bind Metadata.word_id == some wordId

/-- Embeds `getDaysSince(wordId, reviewData)` (two-argument overload): days since the
last review of the word, `999` when the word has no review. -/
def getDaysSinceWord (now : ℤ) (wordId : String) (reviewData : List LearningDataPoint) : ℤ :=
  let wordReviews := reviewData.filter (matchesWord wordId)
  match wordReviews.getLast? with
  | none => 999
  | some lastReview => getDaysBetween lastReview.timestamp now

/-- Embeds `addDays(date, days)`: under the UTC model, shifting a timestamp by a whole
number of days adds `days * 86400000` milliseconds. -/
def addDays (date : ℤ) (days : ℚ) : ℚ := (date : ℚ) + days * 86400000

/-- Embeds `generateSpacedRepetitionSchedule(wordMetrics, lastReviewDate, lastQuality)`:
the SM-2-style scheduling recurrence.  Note that the source's
`repetitionNumber === 2` branch and its final `else` branch are the same
expression `Math.round(interval * easeFactor)`; both are kept. -/
def generateSpacedRepetitionSchedule (wordMetrics : WordLearningMetrics)
    (lastReviewDate : ℤ) (lastQuality : ℚ) : SpacedRepetitionSchedule :=
  match wordMetrics.spaced_repetition_data with
  | none =>
      { word_id := wordMetrics.word_id
        next_review_date := addDays lastReviewDate 1
        interval_days := 1
        ease_factor := 2.5
        repetition_number := 1
        last_quality := lastQuality }
  | some spacedRepData =>
      let s :=
        if 3 ≤ lastQuality then
          let interval :=
            if spacedRepData.repetition_number = 1 then (6 : ℚ)
            else if spacedRepData.repetition_number = 2 then
              ((round (spacedRepData.next_interval * spacedRepData.ease_factor) : ℤ) : ℚ)
            else
              ((round (spacedRepData.next_interval * spacedRepData.ease_factor) : ℤ) : ℚ)
          let easeFactor := spacedRepData.ease_factor +
            (0.1 - (5 - lastQuality) * (0.08 + (5 - lastQuality) * 0.02))
          (interval, easeFactor, spacedRepData.repetition_number)
        else
          ((1 : ℚ), spacedRepData.ease_factor, (0 : ℚ))
      let easeFactor := max 1.3 s.2.1
      let interval := max minInterval (min maxInterval s.1)
      { word_id := wordMetrics.word_id
        next_review_date := addDays lastReviewDate interval
        interval_days := interval
        ease_factor := round2 easeFactor
        repetition_number := s.2.2 + 1
        last_quality := lastQuality }

/-- Embeds `calculateInitialStrength(reviews)`.  The source reads `reviews[0]`
unconditionally; it is only called with a non-empty list, so the `none`
branch (returning the same default `0.3`) is unreachable. -/
def calculateInitialStrength (reviews : List LearningDataPoint) : ℚ :=
  match reviews.head? with
  | some firstReview =>
      if firstReview.metric_type = MetricType.accuracy_rate then
        max 0.1 (min 0.9 firstReview.value)
      else 0.3
  | none => 0.3

/-- Embeds `calculateDecayRate(reviews)`: decay derived from the accuracy slope over
elapsed days, clamped to `[0.01, 0.5]`. -/
def calculateDecayRate (reviews : List LearningDataPoint) : ℚ :=
  if reviews.length < 3 then defaultDecayRate
  else
    let accuracyReviews := reviews.filter (fun r => r.metric_type == MetricType.accuracy_rate)
    if accuracyReviews.length < 2 then defaultDecayRate
    else
      match accuracyReviews.head?, accuracyReviews.getLast? with
      | some firstR, some lastR =>
          let timeSpan := getDaysBetween firstR.timestamp lastR.timestamp
          if timeSpan = 0 then defaultDecayRate
          else
            let performanceChange := (lastR.value - firstR.value) / (timeSpan : ℚ)
            max 0.01 (min 0.5 (defaultDecayRate - performanceChange * 0.1))
      | _, _ => defaultDecayRate

/-- The guarded accuracy `encounterCount > 0 ? correctCount / encounterCount : 0`
used by `calculateStabilityFactor`. -/
def accuracyOf (wordMetrics : WordLearningMetrics) : ℚ :=
  if 0 < wordMetrics.encounter_count then
    wordMetrics.correct_count / wordMetrics.encounter_count
  else 0

/-- Embeds `calculateConsistencyBonus(reviews)`: lower variance of recent accuracy
samples gives a higher bonus, capped at `0.2`. -/
def calculateConsistencyBonus (reviews : List LearningDataPoint) : ℚ :=
  let accuracyReviews :=
    (reviews.filter (fun r => r.metric_type == MetricType.accuracy_rate)).map (·.value)
  if accuracyReviews.length < 3 then 0
  else
    let mean := accuracyReviews.sum / (accuracyReviews.length : ℚ)
    let variance := ((accuracyReviews.map (fun val => (val - mean) ^ 2)).sum) /
      (accuracyReviews.length : ℚ)
    max 0 (0.2 - variance)

/-- Embeds `calculateStabilityFactor(wordMetrics, reviews)`. -/
def calculateStabilityFactor (wordMetrics : WordLearningMetrics)
    (reviews : List LearningDataPoint) : ℚ :=
  let accuracy := accuracyOf wordMetrics
  let baseStability := min 0.9 (accuracy * 0.8)
  let consistencyBonus := calculateConsistencyBonus reviews
  max 0.1 (baseStability + consistencyBonus)

/-- Embeds `calculateCurrentRetrievalStrength(wordMetrics, reviews, decayRate)`; the
`wordMetrics` parameter is unused by the source body as well. -/
def calculateCurrentRetrievalStrength (rexp : ℚ → ℚ) (now : ℤ)
    (_wordMetrics : WordLearningMetrics) (reviews : List LearningDataPoint)
    (decayRate : ℚ) : ℚ :=
  match reviews.getLast? with
  | none => 0.3
  | some lastReview =>
      let daysSinceLastReview := getDaysSince now lastReview.timestamp
      let lastPerformance :=
        if lastReview.metric_type = MetricType.accuracy_rate then lastReview.value else 0.5
      let timeDecay := rexp (-decayRate * (daysSinceLastReview : ℚ))
      max 0.05 (lastPerformance * timeDecay)

/-- Embeds `calculateOptimalInterval(retrievalStrength, stabilityFactor, decayRate)`:
days until projected retention crosses the `0.85` target, clamped to
`[1, 365]`. -/
def calculateOptimalInterval (rlog : ℚ → ℚ)
    (retrievalStrength stabilityFactor decayRate : ℚ) : ℚ :=
  let adjustedRetention := max 0.1 (retrievalStrength * stabilityFactor)
  if adjustedRetention ≤ targetRetention then minInterval
  else
    let interval := rlog (targetRetention / adjustedRetention) / (-decayRate)
    max minInterval (min maxInterval ((round interval : ℤ) : ℚ))

/-- Embeds `calculateModelConfidence(reviews)`: grows with sample count (capped 0.9)
plus a bonus for samples in the last 30 days. -/
def calculateModelConfidence (now : ℤ) (reviews : List LearningDataPoint) : ℚ :=
  let dataPoints := reviews.length
  let baseConfidence := min 0.9 ((dataPoints : ℚ) / 20)
  let recentReviews :=
    (reviews.filter (fun r => decide (getDaysSince now r.timestamp < 30))).length
  let recencyBonus := min 0.1 ((recentReviews : ℚ) / 10)
  max 0.1 (baseConfidence + recencyBonus)

/-- Embeds `calculateForgettingCurve(wordMetrics, reviewHistory)`: the per-item decay
model (`computeModel` in the spec).  Besides its two arguments it reads the
current wall clock (`new Date()` inside `getDaysSince`), passed here as
`now`. -/
def calculateForgettingCurve (rexp rlog : ℚ → ℚ) (now : ℤ)
    (wordMetrics : WordLearningMetrics) (reviewHistory : List LearningDataPoint) :
    ForgettingCurveModel :=
  let reviews := (reviewHistory.filter (matchesWord wordMetrics.word_id)).mergeSort
    (fun a b => a.timestamp ≤ b.timestamp)
  if reviews.length = 0 then
    { word_id := wordMetrics.word_id
      initial_strength := 0.3
      decay_rate := defaultDecayRate
      stability_factor := 0.5
      retrieval_strength := 0.3
      optimal_interval := 1
      confidence_level := 0.2 }
  else
    let decayRate := calculateDecayRate reviews
    let retrievalStrength := calculateCurrentRetrievalStrength rexp now wordMetrics reviews decayRate
    let stabilityFactor := calculateStabilityFactor wordMetrics reviews
    { word_id := wordMetrics.word_id
      initial_strength := calculateInitialStrength reviews
      decay_rate := decayRate
      stability_factor := stabilityFactor
      retrieval_strength := retrievalStrength
      optimal_interval := calculateOptimalInterval rlog retrievalStrength stabilityFactor decayRate
      confidence_level := calculateModelConfidence now reviews }

/-- Embeds `calculateRecommendedDelay(model, successProbability, daysSinceLastReview)`. -/
def calculateRecommendedDelay (model : ForgettingCurveModel)
    (successProbability daysSinceLastReview : ℚ) : ℚ :=
  if 0.9 < successProbability then min maxInterval (model.optimal_interval * 1.5)
  else if successProbability < 0.7 then 0
  else max 0 (model.optimal_interval - daysSinceLastReview)

/-- Embeds `determinePriority(successProbability, daysSinceLastReview, optimalInterval)`. -/
def determinePriority (successProbability daysSinceLastReview optimalInterval : ℚ) :
    ReviewPriority :=
  if successProbability < 0.5 then ReviewPriority.urgent
  else if optimalInterval ≤ daysSinceLastReview then ReviewPriority.due
  else if optimalInterval * 0.8 ≤ daysSinceLastReview then ReviewPriority.optional
  else ReviewPriority.too_early

/-- Embeds `calculateDifficultyAdjustment(successProbability)`. -/
def calculateDifficultyAdjustment (successProbability : ℚ) : ℚ :=
  if 0.9 < successProbability then 0.3
  else if successProbability < 0.6 then -0.3
  else 0

/-- Embeds `generatePredictionReasoning(successProbability, daysSinceLastReview, model)`.
Number-to-string conversion follows Lean's printing of the exact rational. -/
def generatePredictionReasoning (successProbability daysSinceLastReview : ℚ)
    (model : ForgettingCurveModel) : List String :=
  let reasoning := [toString (round (successProbability * 100)) ++ ("% predicted success probability"),
    toString daysSinceLastReview ++ (" days since last review")]
  let reasoning := reasoning ++
    (if 0.7 < model.confidence_level then [("High confidence prediction based on review history")]
     else [("Moderate confidence - limited review history")])
  reasoning ++
    (if 0.8 < model.stability_factor then [("Strong memory stability detected")]
     else if model.stability_factor < 0.4 then
       [("Memory appears unstable - frequent review needed")]
     else [])

/-- Embeds `predictReviewSuccess(model, daysSinceLastReview)` (`predictSuccess` in the
spec). -/
def predictReviewSuccess (rexp : ℚ → ℚ) (model : ForgettingCurveModel)
    (daysSinceLastReview : ℚ) : ReviewPrediction :=
  let timeDecay := rexp (-model.decay_rate * daysSinceLastReview)
  let currentRetention := model.retrieval_strength * timeDecay
  let stabilityBonus := model.stability_factor * 0.2
  let successProbability := min 0.95 (currentRetention + stabilityBonus)
  { word_id := model.word_id
    success_probability := round4 successProbability
    recommended_delay := calculateRecommendedDelay model successProbability daysSinceLastReview
    difficulty_adjustment := calculateDifficultyAdjustment successProbability
    review_priority := determinePriority successProbability daysSinceLastReview
      model.optimal_interval
    reasoning := generatePredictionReasoning successProbability daysSinceLastReview model }

end ForgettingCurveEngine

namespace ForgettingCurveEngine

/-- Embeds `ForgettingCurveInsights.memory_stability_trend` values. -/
inductive StabilityTrend where
  | improving | declining | stable
deriving DecidableEq

/-- Embeds `WordForgettingProfile`. -/
structure WordForgettingProfile where
  word_id : String
  word_text : String
  forgetting_rate : ℚ
  memory_strength : ℚ
  review_efficiency : ℚ
  last_seen : ℤ
  total_reviews : ℚ
deriving DecidableEq

/-- Embeds `ForgettingCurveInsights`.  `average_retention` is an `Option` because the
source computes it by an unguarded division that produces the IEEE NaN on an
empty model list; `none` models NaN. -/
structure ForgettingCurveInsights where
  total_words : ℕ
  words_due : ℕ
  words_overdue : ℕ
  optimal_daily_reviews : ℤ
  average_retention : Option ℚ
  memory_stability_trend : StabilityTrend
  most_forgettable_words : List WordForgettingProfile
  strongest_memories : List WordForgettingProfile
deriving DecidableEq

/-- Embeds `calculateMemoryStabilityTrend(models, allReviewData)` (the review-data
parameter is unused by the source body as well).  With an empty model list the
source's two averages are `0/0` (NaN); every comparison against NaN is false,
so the function falls through to `'stable'` — the guard here makes that
explicit. -/
def calculateMemoryStabilityTrend (models : List ForgettingCurveModel)
    (_allReviewData : List LearningDataPoint) : StabilityTrend :=
  if models.length = 0 then StabilityTrend.stable
  else
    let avgStability := (models.map (·.stability_factor)).sum / (models.length : ℚ)
    let avgRetrieval := (models.map (·.retrieval_strength)).sum / (models.length : ℚ)
    let overallStrength := (avgStability + avgRetrieval) / 2
    if 0.7 < overallStrength then StabilityTrend.improving
    else if overallStrength < 0.4 then StabilityTrend.declining
    else StabilityTrend.stable

/-- The due predicate of `getForgettingCurveInsights`:
`getDaysSince(word, data) >= model.optimal_interval`. -/
def isDue (now : ℤ) (allReviewData : List LearningDataPoint)
    (model : ForgettingCurveModel) : Bool :=
  decide (model.optimal_interval ≤ ((getDaysSinceWord now model.word_id allReviewData : ℤ) : ℚ))

/-- The overdue predicate of `getForgettingCurveInsights`:
`getDaysSince(word, data) > model.optimal_interval * 1.5`. -/
def isOverdue (now : ℤ) (allReviewData : List LearningDataPoint)
    (model : ForgettingCurveModel) : Bool :=
  decide (model.optimal_interval * 1.5 < ((getDaysSinceWord now model.word_id allReviewData : ℤ) : ℚ))

/-- Stand-in for the source's non-null assertion (`find(...)!`) in the profile
lookups; the lookup always succeeds because every model's word id comes from
the metrics list itself, so this default is never used. -/
def assertedMetrics : WordLearningMetrics :=
  { word_id := "", encounter_count := 0, correct_count := 0, incorrect_count := 0
    avg_response_time := 0, first_seen := 0, last_seen := 0, confidence_score := 0
    retention_estimate := 0, next_review_date := 0, spaced_repetition_data := none }

/-- Embeds `getMostForgettableWords(allWordMetrics, models)`: top 10 by decay rate. -/
def getMostForgettableWords (allWordMetrics : List WordLearningMetrics)
    (models : List ForgettingCurveModel) : List WordForgettingProfile :=
  ((models.mergeSort (fun a b => decide (b.decay_rate ≤ a.decay_rate))).take 10).map
    (fun model =>
      let metrics := (allWordMetrics.find? (fun m => m.word_id == model.word_id)).getD
        assertedMetrics
      { word_id := model.word_id
        word_text := metrics.word_id
        forgetting_rate := model.decay_rate
        memory_strength := model.retrieval_strength
        review_efficiency := 0.5
        last_seen := metrics.last_seen
        total_reviews := metrics.encounter_count })

/-- Embeds `getStrongestMemories(allWordMetrics, models)`: top 10 by
`retrieval_strength * stability_factor`. -/
def getStrongestMemories (allWordMetrics : List WordLearningMetrics)
    (models : List ForgettingCurveModel) : List WordForgettingProfile :=
  ((models.mergeSort (fun a b =>
      decide (b.retrieval_strength * b.stability_factor ≤
        a.retrieval_strength * a.stability_factor))).take 10).map
    (fun model =>
      let metrics := (allWordMetrics.find? (fun m => m.word_id == model.word_id)).getD
        assertedMetrics
      { word_id := model.word_id
        word_text := metrics.word_id
        forgetting_rate := model.decay_rate
        memory_strength := model.retrieval_strength
        review_efficiency := 0.8
        last_seen := metrics.last_seen
        total_reviews := metrics.encounter_count })

/-- Embeds `getForgettingCurveInsights(allWordMetrics, allReviewData)` (`getInsights`
in the spec).  `average_retention` reproduces the source's
`reduce(...) / models.length` followed by `Math.round(x * 10000) / 100`,
which is NaN (modelled `none`) when the metrics collection is empty. -/
def getForgettingCurveInsights (rexp rlog : ℚ → ℚ) (now : ℤ)
    (allWordMetrics : List WordLearningMetrics)
    (allReviewData : List LearningDataPoint) : ForgettingCurveInsights :=
  let models := allWordMetrics.map
    (fun metrics => calculateForgettingCurve rexp rlog now metrics allReviewData)
  let wordsDue := (models.filter (isDue now allReviewData)).length
  let wordsOverdue := (models.filter (isOverdue now allReviewData)).length
  let optimalDailyReviews := round ((models.length : ℚ) / 30)
  let averageRetention : Option ℚ :=
    if models.length = 0 then none
    else some ((models.map (·.retrieval_strength)).sum / (models.length : ℚ))
  { total_words := allWordMetrics.length
    words_due := wordsDue
    words_overdue := wordsOverdue
    optimal_daily_reviews := optimalDailyReviews
    average_retention := averageRetention.map (fun a => ((round (a * 10000) : ℤ) : ℚ) / 100)
    memory_stability_trend := calculateMemoryStabilityTrend models allReviewData
    most_forgettable_words := getMostForgettableWords allWordMetrics models
    strongest_memories := getStrongestMemories allWordMetrics models }

end ForgettingCurveEngine

-- ============================================================================
-- Temporal Pattern Analysis Engine (`part_005`)
-- ============================================================================

namespace TemporalPatternEngine

/-- Embeds `TemporalPatternType`. -/
inductive TemporalPatternType where
  | daily_rhythm | weekly_cycle | binge_learning | micro_sessions
  | consistency_pattern | seasonal_drift | performance_wave | plateau_breakthrough
deriving DecidableEq

/-- A day-of-week performance entry as built by `analyzeWeeklyCycles`. -/
structure DayPerf where
  day : ℕ
  dayName : String
  avgPerformance : ℚ
  sessionCount : ℕ
deriving DecidableEq

/-- Values of the free-form `metadata` record attached to a pattern; only the
shapes the detectors actually store are modelled. -/
inductive MetaVal where
  | num : ℚ → MetaVal
  | numList : List ℚ → MetaVal
  | dayPerfList : List DayPerf → MetaVal
deriving DecidableEq

/-- Embeds `TemporalPattern`; timestamps are epoch milliseconds. -/
structure TemporalPattern where
  pattern_id : String
  pattern_type : TemporalPatternType
  description : String
  confidence : ℚ
  start_time : ℤ
  end_time : ℤ
  frequency : ℚ
  significance_score : ℚ
  metadata : List (String × MetaVal)
deriving DecidableEq

/-- Engine constant `analysisWindow` (declared but unused by the source). -/
def analysisWindow : ℕ := 90

/-- Engine constant `minDataPoints`. -/
def minDataPoints : ℕ := 50

/-- Engine constant `confidenceThreshold`. -/
def confidenceThreshold : ℚ := 0.7

/-- The empty string (used where JS would read an out-of-range array slot). -/
def emptyString : String := ""

/-- Embeds `groupByHour(data)`: JS records with integer-like keys enumerate in
ascending key order, so the groups are listed by hour; each bucket keeps the
insertion order of its points, as `filter` does. -/
def groupByHour (data : List LearningDataPoint) : List (ℕ × List LearningDataPoint) :=
  (List.range 24).filterMap (fun hour =>
    let pts := data.filter (fun point => dateGetHours point.timestamp == hour)
    if pts.isEmpty then none else some (hour, pts))

/-- Embeds `groupByDayOfWeek(data)`, with the same key-ordering model. -/
def groupByDayOfWeek (data : List LearningDataPoint) : List (ℕ × List LearningDataPoint) :=
  (List.range 7).filterMap (fun day =>
    let pts := data.filter (fun point => dateGetDay point.timestamp == day)
    if pts.isEmpty then none else some (day, pts))

/-- Embeds `groupByDay(data)` (keyed by `timestamp.split('T')[0]`): JS string keys
enumerate in first-insertion order. -/
def groupByDay (data : List LearningDataPoint) : List (String × List LearningDataPoint) :=
  ((data.map (fun p => dayKeyOf p.timestamp)).eraseDups).map
    (fun day => (day, data.filter (fun p => dayKeyOf p.timestamp == day)))

/-- Embeds `calculateAveragePerformance(data)`: response times contribute inverted
(`1 / max(value, 1)`), everything else contributes its value. -/
def calculateAveragePerformance (data : List LearningDataPoint) : ℚ :=
  if data.length = 0 then 0
  else
    let sum := data.foldl (fun total point =>
      if point.metric_type = MetricType.accuracy_rate then total + point.value
      else if point.metric_type = MetricType.response_time then
        total + 1 / max point.value 1
      else total + point.value) 0
    sum / (data.length : ℚ)

/-- Embeds `calculateVariance(values)` (population variance, 0 on empty input). -/
def calculateVariance (values : List ℚ) : ℚ :=
  if values.length = 0 then 0
  else
    let mean := values.sum / (values.length : ℚ)
    ((values.map (fun val => (val - mean) ^ 2)).sum) / (values.length : ℚ)

/-- Embeds `calculateRhythmConfidence(hourlyData)`: higher inter-hour variance gives
higher confidence, capped at 0.9. -/
def calculateRhythmConfidence (hourlyData : List (ℕ × List LearningDataPoint)) : ℚ :=
  let performances := hourlyData.map (fun e => calculateAveragePerformance e.2)
  min 0.9 (calculateVariance performances * 2)

/-- The day-name table of `getDayName`. -/
def dayNames : List String :=
  ["Sunday", "Monday", "Tuesday", "Wednesday", "Thursday", "Friday", "Saturday"]

/-- Embeds `getDayName(dayIndex)`. -/
def getDayName (dayIndex : ℕ) : String := dayNames.getD dayIndex emptyString

/-- Embeds `getEarliestTimestamp(data)`: string-reduce over ISO timestamps, whose
order coincides with millisecond order; the fallback for an empty list is the
current time. -/
def getEarliestTimestamp (now : ℤ) (data : List LearningDataPoint) : ℤ :=
  let init := match data.head? with
    | some p => p.timestamp
    | none => now
  data.foldl (fun earliest point =>
    if point.timestamp < earliest then point.timestamp else earliest) init

/-- Embeds `getLatestTimestamp(data)`. -/
def getLatestTimestamp (now : ℤ) (data : List LearningDataPoint) : ℤ :=
  let init := match data.head? with
    | some p => p.timestamp
    | none => now
  data.foldl (fun latest point =>
    if latest < point.timestamp then point.timestamp else latest) init

/-- Embeds `getDaySpan(sessions)`: ceiling of the span between the first and last
session (list order, not extremes), at least 1. -/
def getDaySpan (sessions : List StudySession) : ℤ :=
  match sessions.head?, sessions.getLast? with
  | some earliest, some latest =>
      max 1 ⌈((latest.date - earliest.date : ℤ) : ℚ) / (1000 * 60 * 60 * 24)⌉
  | _, _ => 1

/-- Embeds `getDaySpanFromData(data)`. -/
def getDaySpanFromData (now : ℤ) (data : List LearningDataPoint) : ℤ :=
  if data.length = 0 then 1
  else
    let earliest := getEarliestTimestamp now data
    let latest := getLatestTimestamp now data
    max 1 ⌈((latest - earliest : ℤ) : ℚ) / (1000 * 60 * 60 * 24)⌉

/-- Embeds `calculateDailyFrequency(data)`. -/
def calculateDailyFrequency (now : ℤ) (data : List LearningDataPoint) : ℚ :=
  (data.length : ℚ) / (getDaySpanFromData now data : ℚ)

/-- Embeds `calculateWeeklyFrequency(data)`. -/
def calculateWeeklyFrequency (now : ℤ) (data : List LearningDataPoint) : ℚ :=
  (data.length : ℚ) / ((getDaySpanFromData now data : ℚ) / 7)

/-- Embeds `applyMovingAverage(values, windowSize)`: centred window clipped to the
array bounds (natural subtraction models `Math.max(0, ...)`). -/
def applyMovingAverage (values : List ℚ) (windowSize : ℕ) : List ℚ :=
  (List.range values.length).map (fun i =>
    let start := i - windowSize / 2
    let stop := min values.length (i + windowSize / 2 + 1)
    let window := (values.drop start).take (stop - start)
    window.sum / (window.length : ℚ))

/-- Embeds `calculateAutoCorrelation(data, lag)`. -/
def calculateAutoCorrelation (data : List ℚ) (lag : ℕ) : ℚ :=
  if data.length ≤ lag then 0
  else
    let mean := data.sum / (data.length : ℚ)
    let numerator := ((data.zip (data.drop lag)).map
      (fun p => (p.1 - mean) * (p.2 - mean))).sum
    let denominator := (data.map (fun v => (v - mean) ^ 2)).sum
    if denominator ≠ 0 then numerator / denominator else 0

/-- Embeds `predictNextPeak(data, period)`: `period` days after now (the data
parameter is unused by the source body as well). -/
def predictNextPeak (now : ℤ) (_data : List LearningDataPoint) (period : ℕ) : ℤ :=
  now + (period : ℤ) * 24 * 60 * 60 * 1000

/-- One cycle candidate of `detectPerformanceCycles`. -/
structure PerformanceCycle where
  period : ℕ
  amplitude : ℚ
  confidence : ℚ
  nextPeak : ℤ
deriving DecidableEq

/-- Embeds `detectPerformanceCycles(smoothedData, rawData)`: autocorrelation scan
over lags 5, 7, ..., 29, keeping correlations above 0.5, sorted by descending
confidence, top 3. -/
def detectPerformanceCycles (now : ℤ) (smoothedData : List ℚ)
    (rawData : List LearningDataPoint) : List PerformanceCycle :=
  let cycles := (List.range 13).filterMap (fun k =>
    let period := 5 + 2 * k
    let correlation := calculateAutoCorrelation smoothedData period
    if 0.5 < correlation then
      some { period := period
             amplitude := calculateVariance smoothedData
             confidence := correlation
             nextPeak := predictNextPeak now rawData period }
    else none)
  (cycles.mergeSort (fun a b => decide (b.confidence ≤ a.confidence))).take 3

/-- An hour statistics entry as built by `analyzeDailyRhythms`. -/
structure HourStat where
  hour : ℕ
  avgPerformance : ℚ
  dataPoints : ℕ
deriving DecidableEq

/-- Embeds `analyzeDailyRhythms(learningData)`. -/
def analyzeDailyRhythms (now : ℤ) (learningData : List LearningDataPoint) :
    List TemporalPattern :=
  let hourlyPerformance := groupByHour learningData
  if hourlyPerformance.length < 8 then []
  else
    let sortedHours := (((hourlyPerformance.map (fun e =>
        ({ hour := e.1, avgPerformance := calculateAveragePerformance e.2,
           dataPoints := e.2.length } : HourStat))).filter
        (fun entry => 5 ≤ entry.dataPoints)).mergeSort
      (fun a b => decide (b.avgPerformance ≤ a.avgPerformance)))
    if 3 ≤ sortedHours.length then
      let topHours := sortedHours.take 3
      let confidenceScore := calculateRhythmConfidence hourlyPerformance
      if 0.6 ≤ confidenceScore then
        [{ pattern_id := ("daily_rhythm_") ++ toString now
           pattern_type := TemporalPatternType.daily_rhythm
           description := ("Peak performance hours: ") ++
             String.intercalate (", ") (topHours.map (fun h => toString h.hour ++ (":00")))
           confidence := confidenceScore
           start_time := getEarliestTimestamp now learningData
           end_time := getLatestTimestamp now learningData
           frequency := calculateDailyFrequency now learningData
           significance_score := confidenceScore
           metadata := [(("peak_hours"), MetaVal.numList (topHours.map (fun h => (h.hour : ℚ)))),
             (("performance_scores"), MetaVal.numList (topHours.map (·.avgPerformance)))] }]
      else []
    else []

/-- A default `DayPerf` standing in for the start of the source's
initial-value-free `reduce` (only combined with non-empty lists). -/
def firstDayPerf (l : List DayPerf) : DayPerf :=
  l.headD { day := 0, dayName := emptyString, avgPerformance := 0, sessionCount := 0 }

/-- Embeds `analyzeWeeklyCycles(learningData)`.  The source's `reduce` without an
initial value is modelled as a fold started from the first element (the first
combination step compares the head with itself, which is the identity). -/
def analyzeWeeklyCycles (now : ℤ) (learningData : List LearningDataPoint) :
    List TemporalPattern :=
  let weeklyData := groupByDayOfWeek learningData
  if 5 ≤ weeklyData.length then
    let dayPerformance := weeklyData.map (fun e =>
      ({ day := e.1, dayName := getDayName e.1,
         avgPerformance := calculateAveragePerformance e.2,
         sessionCount := e.2.length } : DayPerf))
    let variance := calculateVariance (dayPerformance.map (·.avgPerformance))
    if 0.1 < variance then
      let bestDay := dayPerformance.foldl (fun best current =>
        if best.avgPerformance < current.avgPerformance then current else best)
        (firstDayPerf dayPerformance)
      let worstDay := dayPerformance.foldl (fun worst current =>
        if current.avgPerformance < worst.avgPerformance then current else worst)
        (firstDayPerf dayPerformance)
      [{ pattern_id := ("weekly_cycle_") ++ toString now
         pattern_type := TemporalPatternType.weekly_cycle
         description := ("Best day: ") ++ bestDay.dayName ++ (", Challenging day: ") ++
           worstDay.dayName
         confidence := min 0.9 (variance * 2)
         start_time := getEarliestTimestamp now learningData
         end_time := getLatestTimestamp now learningData
         frequency := calculateWeeklyFrequency now learningData
         significance_score := variance
         metadata := [(("day_performance"), MetaVal.dayPerfList dayPerformance),
           (("performance_variance"), MetaVal.num variance)] }]
    else []
  else []

/-- A default session standing in for the source's unchecked `sessions[0]`
access (only reached with at least 20 sessions). -/
def defaultSession : StudySession := { date := 0, duration_minutes := 0, words_practiced := 0 }

/-- Embeds `analyzeSessionPatterns(studySessions)`. -/
def analyzeSessionPatterns (now : ℤ) (studySessions : List StudySession) :
    List TemporalPattern :=
  if studySessions.length < 20 then []
  else
    let durations := studySessions.map (·.duration_minutes)
    let _avgDuration := durations.sum / (durations.length : ℚ)
    let microSessions := studySessions.filter (fun s => decide (s.duration_minutes ≤ 5))
    let bingeSessions := studySessions.filter (fun s => decide (30 ≤ s.duration_minutes))
    let micro :=
      if 0.4 < (microSessions.length : ℚ) / (studySessions.length : ℚ) then
        [{ pattern_id := ("micro_sessions_") ++ toString now
           pattern_type := TemporalPatternType.micro_sessions
           description := toString (round ((microSessions.length : ℚ) /
               (studySessions.length : ℚ) * 100)) ++ ("% micro sessions (≤5 min)")
           confidence := 0.8
           start_time := (studySessions.headD defaultSession).date
           end_time := (studySessions.getLastD defaultSession).date
           frequency := (microSessions.length : ℚ) / (getDaySpan studySessions : ℚ)
           significance_score := (microSessions.length : ℚ) / (studySessions.length : ℚ)
           metadata := [(("micro_session_count"), MetaVal.num (microSessions.length : ℚ)),
             (("avg_micro_duration"), MetaVal.num
               ((microSessions.map (·.duration_minutes)).sum / (microSessions.length : ℚ)))] }]
      else []
    let binge :=
      if 0.15 < (bingeSessions.length : ℚ) / (studySessions.length : ℚ) then
        [{ pattern_id := ("binge_learning_") ++ toString now
           pattern_type := TemporalPatternType.binge_learning
           description := toString (round ((bingeSessions.length : ℚ) /
               (studySessions.length : ℚ) * 100)) ++ ("% extended sessions (≥30 min)")
           confidence := 0.8
           start_time := (studySessions.headD defaultSession).date
           end_time := (studySessions.getLastD defaultSession).date
           frequency := (bingeSessions.length : ℚ) / (getDaySpan studySessions : ℚ)
           significance_score := (bingeSessions.length : ℚ) / (studySessions.length : ℚ)
           metadata := [(("binge_session_count"), MetaVal.num (bingeSessions.length : ℚ)),
             (("avg_binge_duration"), MetaVal.num
               ((bingeSessions.map (·.duration_minutes)).sum / (bingeSessions.length : ℚ)))] }]
      else []
    micro ++ binge

/-- A default data point standing in for the source's unchecked
`accuracyData[0]` access (only reached with at least 30 points). -/
def defaultPoint : LearningDataPoint :=
  { timestamp := 0, metric_type := MetricType.accuracy_rate, value := 0, metadata := none }

/-- Embeds `analyzePerformanceWaves(learningData)`. -/
def analyzePerformanceWaves (now : ℤ) (learningData : List LearningDataPoint) :
    List TemporalPattern :=
  let accuracyData := (learningData.filter
      (fun d => d.metric_type == MetricType.accuracy_rate)).mergeSort
    (fun a b => decide (a.timestamp ≤ b.timestamp))
  if accuracyData.length < 30 then []
  else
    let smoothedData := applyMovingAverage (accuracyData.map (·.value)) 7
    let cycles := detectPerformanceCycles now smoothedData accuracyData
    (cycles.filter (fun cycle => decide (0.6 < cycle.confidence))).map (fun cycle =>
      { pattern_id := ("performance_wave_") ++ toString now ++ ("_") ++ toString cycle.period
        pattern_type := TemporalPatternType.performance_wave
        description := ("Performance oscillates with ") ++ toString cycle.period ++
          ("-day period")
        confidence := cycle.confidence
        start_time := (accuracyData.headD defaultPoint).timestamp
        end_time := (accuracyData.getLastD defaultPoint).timestamp
        frequency := 1 / (cycle.period : ℚ)
        significance_score := cycle.amplitude
        metadata := [(("period_days"), MetaVal.num (cycle.period : ℚ)),
          (("amplitude"), MetaVal.num cycle.amplitude),
          (("next_peak_estimate"), MetaVal.num (cycle.nextPeak : ℚ))] })

/-- A daily engagement entry as built by `analyzeConsistencyPatterns`. -/
structure DailyEngagement where
  date : String
  dataPoints : ℕ
  avgPerformance : ℚ
deriving DecidableEq

/-- Embeds `analyzeConsistencyPatterns(learningData)`. -/
def analyzeConsistencyPatterns (now : ℤ) (learningData : List LearningDataPoint) :
    List TemporalPattern :=
  let dailyData := groupByDay learningData
  let dailyEngagement := dailyData.map (fun e =>
    ({ date := e.1, dataPoints := e.2.length,
       avgPerformance := calculateAveragePerformance e.2 } : DailyEngagement))
  let engagementVariance := calculateVariance (dailyEngagement.map (fun d => (d.dataPoints : ℚ)))
  let performanceVariance := calculateVariance (dailyEngagement.map (·.avgPerformance))
  if engagementVariance < 5 ∧ 14 ≤ dailyEngagement.length then
    [{ pattern_id := ("consistency_") ++ toString now
       pattern_type := TemporalPatternType.consistency_pattern
       description := ("Highly consistent daily learning engagement")
       confidence := 0.9
       start_time := getEarliestTimestamp now learningData
       end_time := getLatestTimestamp now learningData
       frequency := (dailyEngagement.length : ℚ) / (getDaySpanFromData now learningData : ℚ)
       significance_score := 1 - engagementVariance / 20
       metadata := [(("engagement_variance"), MetaVal.num engagementVariance),
         (("performance_variance"), MetaVal.num performanceVariance),
         (("avg_daily_sessions"), MetaVal.num
           ((dailyEngagement.map (fun d => (d.dataPoints : ℚ))).sum /
             (dailyEngagement.length : ℚ)))] }]
  else []

/-- Embeds `analyzeTemporalPatterns(learningData, studySessions)` (`detectPatterns`
in the spec): requires at least `minDataPoints` events, runs the five
detectors, and keeps only patterns with confidence at or above the
threshold. -/
def analyzeTemporalPatterns (now : ℤ) (learningData : List LearningDataPoint)
    (studySessions : List StudySession) : List TemporalPattern :=
  if learningData.length < minDataPoints then []
  else
    let patterns := analyzeDailyRhythms now learningData ++
      analyzeWeeklyCycles now learningData ++
      analyzeSessionPatterns now studySessions ++
      analyzePerformanceWaves now learningData ++
      analyzeConsistencyPatterns now learningData
    patterns.filter (fun pattern => decide (confidenceThreshold ≤ pattern.confidence))

end TemporalPatternEngine

-- ============================================================================
-- Time Series Analytics Module (`part_006`)
-- ============================================================================

namespace TimeSeries

/-- Embeds `AggregationPeriod`. -/
inductive AggregationPeriod where
  | hour | day | week | month
deriving DecidableEq

/-- Embeds `TimeSeriesAggregate`. -/
structure TimeSeriesAggregate where
  period : String
  metric_type : MetricType
  count : ℕ
  sum : ℚ
  average : ℚ
  min : ℚ
  max : ℚ
  std_deviation : ℚ
deriving DecidableEq

/-- Embeds `getWeekNumber(date)`: week-of-year from the millisecond difference to
January 1st (UTC model; the division keeps the fractional day exactly as the
source's floating division does). -/
def getWeekNumber (ms : ℤ) : ℤ :=
  let firstDayMs := daysFromCivil (dateGetFullYear ms) 1 1 * msPerDay
  let pastDaysOfYear : ℚ := ((ms - firstDayMs : ℤ) : ℚ) / 86400000
  ⌈(pastDaysOfYear + (dateGetDay firstDayMs : ℚ) + 1) / 7⌉

/-- Embeds `getPeriodKey(timestamp, period)` (UTC model).  `setDate(getDate() -
getDay())` shifts the timestamp back by `getDay()` whole days while keeping
the time of day, i.e. subtracts `getDay() * 86400000` milliseconds. -/
def getPeriodKey (ms : ℤ) (period : AggregationPeriod) : String :=
  match period with
  | AggregationPeriod.hour =>
      toString (dateGetFullYear ms) ++ ("-") ++ pad2 (dateGetMonth1 ms) ++ ("-") ++
        pad2 (dateGetDate ms) ++ ("T") ++ pad2 ((dateGetHours ms : ℤ)) ++ (":00:00Z")
  | AggregationPeriod.day =>
      toString (dateGetFullYear ms) ++ ("-") ++ pad2 (dateGetMonth1 ms) ++ ("-") ++
        pad2 (dateGetDate ms)
  | AggregationPeriod.week =>
      let startOfWeek := ms - (dateGetDay ms : ℤ) * msPerDay
      toString (dateGetFullYear startOfWeek) ++ ("-W") ++ pad2 (getWeekNumber startOfWeek)
  | AggregationPeriod.month =>
      toString (dateGetFullYear ms) ++ ("-") ++ pad2 (dateGetMonth1 ms)

/-- Embeds `Math.min(...values)` over a bucket; every bucket holds at least one
value, so the empty branch is unreachable. -/
def listMin (values : List ℚ) : ℚ :=
  match values with
  | [] => 0
  | h :: t => t.foldl min h

/-- Embeds `Math.max(...values)` over a bucket. -/
def listMax (values : List ℚ) : ℚ :=
  match values with
  | [] => 0
  | h :: t => t.foldl max h

/-- The per-bucket statistics record built inside `aggregateDataByPeriod`'s
`map` callback over `Object.entries(grouped)`. -/
def bucketAggregate (msqrt : ℚ → ℚ) (metricType : MetricType)
    (e : String × List ℚ) : TimeSeriesAggregate :=
  let values := e.2
  let sum := values.sum
  let average := sum / (values.length : ℚ)
  let variance := ((values.map (fun val => (val - average) ^ 2)).sum) /
    (values.length : ℚ)
  let stdDeviation := msqrt variance
  { period := e.1
    metric_type := metricType
    count := values.length
    sum := sum
    average := round4 average
    min := listMin values
    max := listMax values
    std_deviation := round4 stdDeviation }

/-- Embeds `aggregateDataByPeriod(dataPoints, metricType, period)` (`aggregate` in
the spec): group the matching values by period key (string keys enumerate in
first-insertion order), compute count/sum/mean/min/max/stddev per bucket, and
sort by period key ascending (`localeCompare` on these ASCII keys is
lexicographic order). -/
def aggregateDataByPeriod (msqrt : ℚ → ℚ) (dataPoints : List LearningDataPoint)
    (metricType : MetricType) (period : AggregationPeriod) : List TimeSeriesAggregate :=
  if dataPoints.length = 0 then []
  else
    let filteredPoints := dataPoints.filter (fun point => point.metric_type == metricType)
    if filteredPoints.length = 0 then []
    else
      let grouped : List (String × List ℚ) :=
        ((filteredPoints.map (fun p => getPeriodKey p.timestamp period)).eraseDups).map
          (fun key => (key, (filteredPoints.filter
            (fun p => getPeriodKey p.timestamp period == key)).map (·.value)))
      (grouped.map (bucketAggregate msqrt metricType)).mergeSort
        (fun a b => decide (a.period ≤ b.period))

end TimeSeries

open ForgettingCurveEngine TemporalPatternEngine TimeSeries

-- ============================================================================
-- Concrete inputs used by counterexamples and witnesses
-- ============================================================================

/-- An item that has already been reviewed three times, with the documented
SM-2 state (ease 2.5, interval 6, repetition 3). -/
def exMetricsRep3 : WordLearningMetrics :=
  { word_id := "w1", encounter_count := 10, correct_count := 7, incorrect_count := 3
    avg_response_time := 1200, first_seen := 0, last_seen := 0, confidence_score := 0.7
    retention_estimate := 0.5, next_review_date := 0
    spaced_repetition_data := some
      { next_review_date := 0, ease_factor := 2.5, next_interval := 6, repetition_number := 3 } }

/-- An item first seen and never scheduled before (no stored
spaced-repetition state). -/
def exFreshMetrics : WordLearningMetrics :=
  { word_id := "w2", encounter_count := 1, correct_count := 1, incorrect_count := 0
    avg_response_time := 900, first_seen := 0, last_seen := 0, confidence_score := 1
    retention_estimate := 0.3, next_review_date := 0
    spaced_repetition_data := none }

/-- The schedule produced by the first review of `exFreshMetrics` at the epoch
with quality 5. -/
def exFirstSchedule : SpacedRepetitionSchedule :=
  generateSpacedRepetitionSchedule exFreshMetrics 0 5

/-- The same item after the caller stored `exFirstSchedule` back into its
`spaced_repetition_data`, as reviewed one day later. -/
def exSecondMetrics : WordLearningMetrics :=
  { exFreshMetrics with
    spaced_repetition_data := some
      { next_review_date := 86400000
        ease_factor := exFirstSchedule.ease_factor
        next_interval := exFirstSchedule.interval_days
        repetition_number := exFirstSchedule.repetition_number } }

/-- A concrete function standing in for the `Math.exp` parameter in closed
statements; the theorems instantiated with it hold for every such function. -/
def unitExp : ℚ → ℚ := fun _ => 1

/-- A concrete function standing in for the `Math.log` parameter in closed
statements. -/
def zeroLog : ℚ → ℚ := fun _ => 0

/-- The default ("insufficient data") forgetting-curve model for a word. -/
def defaultModel (wordId : String) : ForgettingCurveModel :=
  { word_id := wordId
    initial_strength := 0.3
    decay_rate := 0.1
    stability_factor := 0.5
    retrieval_strength := 0.3
    optimal_interval := 1
    confidence_level := 0.2 }

/-- An event tagged with a different word id than the items below. -/
def exOtherEvent : LearningDataPoint :=
  { timestamp := 0, metric_type := MetricType.accuracy_rate, value := 0.8
    metadata := some { word_id := some ("other") } }

/-- A model whose raw success probability has more than four decimal places
(retrieval strength 0 makes the exponential term vanish). -/
def exModelFineGrained : ForgettingCurveModel :=
  { word_id := "w5"
    initial_strength := 0.3
    decay_rate := 0.1
    stability_factor := 0.12345
    retrieval_strength := 0
    optimal_interval := 1
    confidence_level := 0.2 }

/-- An item with exactly one matching review event at the epoch. -/
def exReviewedMetrics : WordLearningMetrics :=
  { word_id := "w8", encounter_count := 5, correct_count := 4, incorrect_count := 1
    avg_response_time := 1000, first_seen := 0, last_seen := 0, confidence_score := 0.8
    retention_estimate := 0.5, next_review_date := 0
    spaced_repetition_data := none }

/-- The single matching review event for `exReviewedMetrics`. -/
def exReviewEvent : LearningDataPoint :=
  { timestamp := 0, metric_type := MetricType.accuracy_rate, value := 0.8
    metadata := some { word_id := some ("w8") } }

/-- Three accuracy events in the same calendar day (the epoch day) with
values 2, 4 and 6. -/
def c9Points : List LearningDataPoint :=
  [{ timestamp := 0, metric_type := MetricType.accuracy_rate, value := 2, metadata := none },
   { timestamp := 3600000, metric_type := MetricType.accuracy_rate, value := 4, metadata := none },
   { timestamp := 7200000, metric_type := MetricType.accuracy_rate, value := 6, metadata := none }]

-- ============================================================================
-- Shared helper lemmas
-- ============================================================================

/-- Evaluation rule for `round` on concrete rationals. -/
theorem round_eval (q : ℚ) (n : ℤ) (h1 : (n : ℚ) ≤ q + 1/2) (h2 : q + 1/2 < n + 1) :
    round q = n := by
  rw [round_eq]
  exact Int.floor_eq_iff.mpr ⟨h1, h2⟩

/-- The interval clamp `max 1 (min 365 x)` always lands in `[1, 365]`. -/
theorem clamp_interval_bounds (x : ℚ) :
    1 ≤ max 1 (min 365 x) ∧ max 1 (min 365 x) ≤ 365 :=
  ⟨le_max_left 1 _, max_le (by norm_num) (min_le_left 365 x)⟩

/-- Evaluation rule for `Int.ceil` on concrete rationals. -/
theorem ceil_eval (q : ℚ) (n : ℤ) (h1 : (n : ℚ) - 1 < q) (h2 : q ≤ (n : ℚ)) :
    ⌈q⌉ = n :=
  Int.ceil_eq_iff.mpr ⟨h1, h2⟩

/-- Rounding to four decimals preserves non-negativity. -/
theorem round4_nonneg (y : ℚ) (h : 0 ≤ y) : 0 ≤ round4 y := by
  unfold round4
  have h0 : (0 : ℤ) ≤ round (y * 10000) := by
    rw [round_eq]
    refine Int.le_floor.mpr ?_
    push_cast
    linarith
  have h0q : ((0 : ℤ) : ℚ) ≤ ((round (y * 10000) : ℤ) : ℚ) := by exact_mod_cast h0
  push_cast at h0q
  exact div_nonneg h0q (by norm_num)

/-- Rounding to four decimals preserves the `0.95` cap. -/
theorem round4_le_cap (y : ℚ) (h : y ≤ 0.95) : round4 y ≤ 0.95 := by
  unfold round4
  have h9500 : round (y * 10000) ≤ 9500 := by
    rw [round_eq]
    refine Int.floor_le_iff.mpr ?_
    push_cast
    linarith
  have h9500q : ((round (y * 10000) : ℤ) : ℚ) ≤ ((9500 : ℤ) : ℚ) := by exact_mod_cast h9500
  push_cast at h9500q
  rw [div_le_iff₀ (by norm_num : (0:ℚ) < 10000)]
  linarith

/-- Rounding to two decimals preserves the ease-factor floor of `1.3`. -/
theorem round2_ge_of_ge (e : ℚ) (h : (1.3 : ℚ) ≤ e) : (1.3 : ℚ) ≤ round2 e := by
  unfold round2
  rw [le_div_iff₀ (by norm_num : (0:ℚ) < 100)]
  have h130 : (130 : ℤ) ≤ round (e * 100) := by
    rw [round_eq]
    refine Int.le_floor.mpr ?_
    push_cast
    linarith
  have h130q : ((130 : ℤ) : ℚ) ≤ ((round (e * 100) : ℤ) : ℚ) := by exact_mod_cast h130
  push_cast at h130q
  linarith

/-- When no event in the log matches the word, `calculateForgettingCurve`
returns the default model (shared helper for the claims below). -/
theorem calculateForgettingCurve_no_match (rexp rlog : ℚ → ℚ) (now : ℤ)
    (m : WordLearningMetrics) (events : List LearningDataPoint)
    (h : ∀ dp ∈ events, matchesWord m.word_id dp = false) :
    calculateForgettingCurve rexp rlog now m events = defaultModel m.word_id := by
  have hf : events.filter (matchesWord m.word_id) = [] := by
    rw [List.filter_eq_nil_iff]
    intro a ha
    simp [h a ha]
  simp [calculateForgettingCurve, hf, defaultModel, defaultDecayRate]

/-- Every model `calculateForgettingCurve` produces has
`optimal_interval ≤ 365` (shared helper). -/
theorem calculateForgettingCurve_optimal_le (rexp rlog : ℚ → ℚ) (now : ℤ)
    (m : WordLearningMetrics) (events : List LearningDataPoint) :
    (calculateForgettingCurve rexp rlog now m events).optimal_interval ≤ 365 := by
  rw [calculateForgettingCurve]
  split
  · norm_num
  · show calculateOptimalInterval _ _ _ _ ≤ 365
    rw [calculateOptimalInterval]
    split
    · rw [minInterval]; norm_num
    · exact max_le (by rw [minInterval]; norm_num)
        (le_trans (min_le_left _ _) (by rw [maxInterval]))

-- ============================================================================
-- Claims C1-C3 about generateSpacedRepetitionSchedule
-- ============================================================================

open ForgettingCurveEngine

/-- C1 (counterexample): with stored state (ease 2.5, interval 6, repetition 3)
and quality 2 < 3, the returned schedule's `repetition_number` is `1`, not `0`
as the claim states: the reset to 0 is followed by the unconditional `+ 1`. -/
theorem c1_counterexample :
    ¬ (generateSpacedRepetitionSchedule exMetricsRep3 0 2).repetition_number = 0 := by
  norm_num [generateSpacedRepetitionSchedule, exMetricsRep3]

/-- C1 (amended): for every stored spaced-repetition state and every review
date, quality < 3 resets the interval to 1 day and resets the repetition
counter to 0 before the unconditional `+ 1`, so the returned schedule has
`interval_days = 1` and `repetition_number = 1` regardless of prior state. -/
theorem c1_failure_resets (m : WordLearningMetrics) (t : ℤ) (q : ℚ)
    (s : SpacedRepetitionEntry) (hs : m.spaced_repetition_data = some s)
    (hq : q < 3) :
    (generateSpacedRepetitionSchedule m t q).interval_days = 1 ∧
    (generateSpacedRepetitionSchedule m t q).repetition_number = 1 := by
  have hq3 : ¬ (3 ≤ q) := not_le.mpr hq
  simp only [generateSpacedRepetitionSchedule, hs, if_neg hq3]
  refine ⟨?_, by norm_num⟩
  show max minInterval (min maxInterval 1) = 1
  rw [minInterval, maxInterval, min_eq_right (by norm_num : (1:ℚ) ≤ 365), max_self]

/-- C1 witness: the amended theorem applied at the concrete reviewed item. -/
theorem c1_witness :
    (generateSpacedRepetitionSchedule exMetricsRep3 0 2).interval_days = 1 ∧
    (generateSpacedRepetitionSchedule exMetricsRep3 0 2).repetition_number = 1 :=
  c1_failure_resets exMetricsRep3 0 2 _ rfl (by norm_num)

/-- C2: whenever the produced schedule is the second success
(`repetition_number = 2`, quality ≥ 3), `interval_days` is exactly 6,
independent of the prior ease factor; and in the end-to-end scenario the
first quality-5 review yields (interval 1, ease 2.5, repetition 1) and the
second, one day later, yields (interval 6, ease 2.6, repetition 2). -/
theorem c2_second_success_interval (m : WordLearningMetrics) (t : ℤ) (q : ℚ)
    (s : SpacedRepetitionEntry) (hs : m.spaced_repetition_data = some s)
    (hq : 3 ≤ q)
    (hrep : (generateSpacedRepetitionSchedule m t q).repetition_number = 2) :
    (generateSpacedRepetitionSchedule m t q).interval_days = 6 ∧
    exFirstSchedule.interval_days = 1 ∧
    exFirstSchedule.ease_factor = 2.5 ∧
    exFirstSchedule.repetition_number = 1 ∧
    (generateSpacedRepetitionSchedule exSecondMetrics 86400000 5).interval_days = 6 ∧
    (generateSpacedRepetitionSchedule exSecondMetrics 86400000 5).ease_factor = 2.6 ∧
    (generateSpacedRepetitionSchedule exSecondMetrics 86400000 5).repetition_number = 2 := by
  have hr260 : round ((260 : ℚ)) = 260 := round_eval 260 260 (by norm_num) (by norm_num)
  refine ⟨?_, ?_, ?_, ?_, ?_, ?_, ?_⟩
  · simp only [generateSpacedRepetitionSchedule, hs, if_pos hq] at hrep ⊢
    have h1 : s.repetition_number = 1 := by linarith
    rw [if_pos h1]
    show max minInterval (min maxInterval 6) = 6
    rw [minInterval, maxInterval, min_eq_right (by norm_num : (6:ℚ) ≤ 365),
      max_eq_right (by norm_num : (1:ℚ) ≤ 6)]
  · norm_num [exFirstSchedule, generateSpacedRepetitionSchedule, exFreshMetrics]
  · norm_num [exFirstSchedule, generateSpacedRepetitionSchedule, exFreshMetrics]
  · norm_num [exFirstSchedule, generateSpacedRepetitionSchedule, exFreshMetrics]
  · norm_num [generateSpacedRepetitionSchedule, exSecondMetrics, exFirstSchedule,
      exFreshMetrics, minInterval, maxInterval]
  · norm_num [generateSpacedRepetitionSchedule, exSecondMetrics, exFirstSchedule,
      exFreshMetrics, round2, hr260]
  · norm_num [generateSpacedRepetitionSchedule, exSecondMetrics, exFirstSchedule,
      exFreshMetrics]

/-- C2 witness: the second-success hypothesis holds at the concrete
end-to-end input, and the theorem applies there. -/
theorem c2_witness :
    (generateSpacedRepetitionSchedule exSecondMetrics 86400000 5).interval_days = 6 :=
  (c2_second_success_interval exSecondMetrics 86400000 5 _ rfl (by norm_num)
    (by norm_num [generateSpacedRepetitionSchedule, exSecondMetrics, exFirstSchedule,
      exFreshMetrics])).1

/-- C3: every generated schedule satisfies `1 ≤ interval_days ≤ 365` and
`ease_factor ≥ 1.3`, for any stored state, any review date, and any quality
in 0-5. -/
theorem c3_schedule_bounds (m : WordLearningMetrics) (t : ℤ) (q : ℚ)
    (hq0 : 0 ≤ q) (hq5 : q ≤ 5) :
    1 ≤ (generateSpacedRepetitionSchedule m t q).interval_days ∧
    (generateSpacedRepetitionSchedule m t q).interval_days ≤ 365 ∧
    (1.3 : ℚ) ≤ (generateSpacedRepetitionSchedule m t q).ease_factor := by
  rcases hsp : m.spaced_repetition_data with _ | s
  · simp only [generateSpacedRepetitionSchedule, hsp]
    norm_num
  · simp only [generateSpacedRepetitionSchedule, hsp]
    refine ⟨?_, ?_, ?_⟩
    · exact le_max_left _ _
    · exact max_le (by rw [minInterval]; norm_num) (le_trans (min_le_left _ _) (by rw [maxInterval]))
    · exact round2_ge_of_ge _ (le_max_left _ _)

/-- C3 witness: the bounds at a concrete stored state and quality 4. -/
theorem c3_witness :
    1 ≤ (generateSpacedRepetitionSchedule exMetricsRep3 0 4).interval_days ∧
    (generateSpacedRepetitionSchedule exMetricsRep3 0 4).interval_days ≤ 365 ∧
    (1.3 : ℚ) ≤ (generateSpacedRepetitionSchedule exMetricsRep3 0 4).ease_factor :=
  c3_schedule_bounds exMetricsRep3 0 4 (by norm_num) (by norm_num)

-- ============================================================================
-- Claims C4, C5, C8 about calculateForgettingCurve / predictReviewSuccess
-- ============================================================================

/-- C4: for every item metrics record, when no event's metadata word id
matches the item, `computeModel` returns exactly the default model
(0.3, 0.1, 0.5, 0.3, 1, 0.2). -/
theorem c4_no_history_default (rexp rlog : ℚ → ℚ) (now : ℤ)
    (m : WordLearningMetrics) (events : List LearningDataPoint)
    (h : ∀ dp ∈ events, matchesWord m.word_id dp = false) :
    calculateForgettingCurve rexp rlog now m events =
      { word_id := m.word_id
        initial_strength := 0.3
        decay_rate := 0.1
        stability_factor := 0.5
        retrieval_strength := 0.3
        optimal_interval := 1
        confidence_level := 0.2 } :=
  calculateForgettingCurve_no_match rexp rlog now m events h

/-- C4 witness: a concrete item whose only event belongs to another word. -/
theorem c4_witness :
    calculateForgettingCurve unitExp zeroLog 0 exFreshMetrics [exOtherEvent] =
      { word_id := "w2"
        initial_strength := 0.3
        decay_rate := 0.1
        stability_factor := 0.5
        retrieval_strength := 0.3
        optimal_interval := 1
        confidence_level := 0.2 } :=
  c4_no_history_default unitExp zeroLog 0 exFreshMetrics [exOtherEvent]
    (by intro dp hdp; simp [exOtherEvent, matchesWord, exFreshMetrics] at hdp ⊢; simp [hdp])

/-- C5 (counterexample): the returned `success_probability` is the min
expression rounded to four decimal places, not the min expression itself:
here the raw value is 0.02469 but the field holds 0.0247. -/
theorem c5_counterexample :
    ¬ ((predictReviewSuccess unitExp exModelFineGrained 0).success_probability =
      min 0.95 (exModelFineGrained.retrieval_strength *
        unitExp (-exModelFineGrained.decay_rate * 0) +
        exModelFineGrained.stability_factor * 0.2)) := by
  have hmin : min (0.95 : ℚ) ((0 : ℚ) * 1 + 0.12345 * 0.2) = 0.02469 := by
    rw [min_def]
    norm_num
  have hL : (predictReviewSuccess unitExp exModelFineGrained 0).success_probability = 0.0247 := by
    simp only [predictReviewSuccess, exModelFineGrained, unitExp, round4, hmin]
    rw [show ((0.02469 : ℚ) * 10000) = 246.9 by norm_num]
    rw [round_eval 246.9 247 (by norm_num) (by norm_num)]
    norm_num
  rw [hL]
  simp only [exModelFineGrained, unitExp, hmin]
  norm_num

/-- C5 (amended): for non-negative retrieval and stability strengths and a
non-negative exponential, the returned `success_probability` lies in
[0, 0.95] and equals the min expression rounded to four decimal places. -/
theorem c5_success_probability_bounds (rexp : ℚ → ℚ) (model : ForgettingCurveModel)
    (days : ℚ) (hrs : 0 ≤ model.retrieval_strength) (hsf : 0 ≤ model.stability_factor)
    (hexp : ∀ x, 0 ≤ rexp x) :
    0 ≤ (predictReviewSuccess rexp model days).success_probability ∧
    (predictReviewSuccess rexp model days).success_probability ≤ 0.95 ∧
    (predictReviewSuccess rexp model days).success_probability =
      round4 (min 0.95 (model.retrieval_strength * rexp (-model.decay_rate * days) +
        model.stability_factor * 0.2)) := by
  have hraw : 0 ≤ model.retrieval_strength * rexp (-model.decay_rate * days) +
      model.stability_factor * 0.2 := by
    have := hexp (-model.decay_rate * days)
    have h1 : 0 ≤ model.retrieval_strength * rexp (-model.decay_rate * days) :=
      mul_nonneg hrs this
    nlinarith
  refine ⟨?_, ?_, rfl⟩
  · exact round4_nonneg _ (le_min (by norm_num) hraw)
  · exact round4_le_cap _ (min_le_left _ _)

/-- C5 witness: the amended bounds at the concrete model with the stand-in
exponential. -/
theorem c5_witness :
    0 ≤ (predictReviewSuccess unitExp exModelFineGrained 0).success_probability ∧
    (predictReviewSuccess unitExp exModelFineGrained 0).success_probability ≤ 0.95 ∧
    (predictReviewSuccess unitExp exModelFineGrained 0).success_probability =
      round4 (min 0.95 (exModelFineGrained.retrieval_strength *
        unitExp (-exModelFineGrained.decay_rate * 0) +
        exModelFineGrained.stability_factor * 0.2)) :=
  c5_success_probability_bounds unitExp exModelFineGrained 0
    (by norm_num [exModelFineGrained]) (by norm_num [exModelFineGrained])
    (by intro x; norm_num [unitExp])

/-- C8 (counterexample): `computeModel` reads the current wall clock, so two
calls with identical item metrics and identical event logs evaluated at
different times differ: 100 days later the model's `confidence_level` drops
from 0.15 to 0.1 (the 30-day recency bonus expires). -/
theorem c8_counterexample :
    calculateForgettingCurve unitExp zeroLog 0 exReviewedMetrics [exReviewEvent] ≠
      calculateForgettingCurve unitExp zeroLog 8640000000 exReviewedMetrics [exReviewEvent] := by
  intro h
  have hfil : List.filter (matchesWord exReviewedMetrics.word_id) [exReviewEvent] =
      [exReviewEvent] := by
    simp [matchesWord, exReviewEvent, exReviewedMetrics]
  have h1 : (calculateForgettingCurve unitExp zeroLog 0
      exReviewedMetrics [exReviewEvent]).confidence_level = 0.15 := by
    simp only [calculateForgettingCurve, hfil, List.mergeSort_singleton]
    norm_num [calculateModelConfidence, getDaysSince, getDaysBetween, exReviewEvent,
      min_def, max_def]
  have h2 : (calculateForgettingCurve unitExp zeroLog 8640000000
      exReviewedMetrics [exReviewEvent]).confidence_level = 0.1 := by
    simp only [calculateForgettingCurve, hfil, List.mergeSort_singleton]
    norm_num [calculateModelConfidence, getDaysSince, getDaysBetween, exReviewEvent,
      min_def, max_def]
  rw [h, h2] at h1
  norm_num at h1

/-- C8 (amended): `computeModel` is a pure function of its two arguments
together with the evaluation clock (and the `Math.exp`/`Math.log`
primitives): two calls with identical inputs and an identical clock reading
yield identical outputs, and for an item with no matching event history the
output does not depend on the clock either. -/
theorem c8_pure_given_clock (rexp rlog : ℚ → ℚ) (now now2 : ℤ)
    (m : WordLearningMetrics) (events : List LearningDataPoint)
    (h : ∀ dp ∈ events, matchesWord m.word_id dp = false) :
    calculateForgettingCurve rexp rlog now m events =
      calculateForgettingCurve rexp rlog now m events ∧
    calculateForgettingCurve rexp rlog now m events =
      calculateForgettingCurve rexp rlog now2 m events := by
  refine ⟨rfl, ?_⟩
  rw [calculateForgettingCurve_no_match rexp rlog now m events h,
    calculateForgettingCurve_no_match rexp rlog now2 m events h]

/-- C8 witness: determinism at a fixed clock, and clock-independence for an
item with no matching events, at concrete inputs. -/
theorem c8_witness :
    calculateForgettingCurve unitExp zeroLog 0 exFreshMetrics [exOtherEvent] =
      calculateForgettingCurve unitExp zeroLog 0 exFreshMetrics [exOtherEvent] ∧
    calculateForgettingCurve unitExp zeroLog 0 exFreshMetrics [exOtherEvent] =
      calculateForgettingCurve unitExp zeroLog 8640000000 exFreshMetrics [exOtherEvent] :=
  c8_pure_given_clock unitExp zeroLog 0 8640000000 exFreshMetrics [exOtherEvent]
    (by intro dp hdp; simp [exOtherEvent, matchesWord, exFreshMetrics] at hdp ⊢; simp [hdp])

-- ============================================================================
-- Claims C6, C10 about getForgettingCurveInsights
-- ============================================================================

/-- C6 (counterexample): over an empty item-metrics collection,
`getInsights` divides the retrieval-strength sum by `models.length = 0`
without a guard; the resulting `average_retention` is NaN (modelled `none`),
not a stated numeric fallback. -/
theorem c6_counterexample :
    (getForgettingCurveInsights unitExp zeroLog 0 [] []).average_retention = none := by
  rfl

/-- C6 (amended): the accuracy-with-zero-encounters site is guarded and
resolves to 0, and `getInsights` over an empty collection still returns a
defined record with zero counts and a `'stable'` trend (every function is
total); but its `average_retention` is an unguarded `0/0` — NaN, modelled
`none` — rather than a numeric fallback. -/
theorem c6_division_guards (rexp rlog : ℚ → ℚ) (now : ℤ)
    (m : WordLearningMetrics) (hm : m.encounter_count = 0) :
    accuracyOf m = 0 ∧
    (getForgettingCurveInsights rexp rlog now [] []).average_retention = none ∧
    (getForgettingCurveInsights rexp rlog now [] []).memory_stability_trend =
      StabilityTrend.stable ∧
    (getForgettingCurveInsights rexp rlog now [] []).total_words = 0 ∧
    (getForgettingCurveInsights rexp rlog now [] []).words_due = 0 ∧
    (getForgettingCurveInsights rexp rlog now [] []).words_overdue = 0 ∧
    (getForgettingCurveInsights rexp rlog now [] []).optimal_daily_reviews = 0 := by
  refine ⟨?_, rfl, rfl, rfl, rfl, rfl, ?_⟩
  · rw [accuracyOf, hm]
    norm_num
  · show round ((([] : List ForgettingCurveModel).length : ℚ) / 30) = 0
    rw [show ((([] : List ForgettingCurveModel).length : ℚ) / 30) = 0 by norm_num]
    rw [round_eval 0 0 (by norm_num) (by norm_num)]

/-- C6 witness: the amended statement at a concrete zero-encounter item. -/
theorem c6_witness :
    accuracyOf assertedMetrics = 0 ∧
    (getForgettingCurveInsights unitExp zeroLog 0 [] []).average_retention = none ∧
    (getForgettingCurveInsights unitExp zeroLog 0 [] []).memory_stability_trend =
      StabilityTrend.stable ∧
    (getForgettingCurveInsights unitExp zeroLog 0 [] []).total_words = 0 ∧
    (getForgettingCurveInsights unitExp zeroLog 0 [] []).words_due = 0 ∧
    (getForgettingCurveInsights unitExp zeroLog 0 [] []).words_overdue = 0 ∧
    (getForgettingCurveInsights unitExp zeroLog 0 [] []).optimal_daily_reviews = 0 :=
  c6_division_guards unitExp zeroLog 0 assertedMetrics rfl

/-- C10: an item with no matching event gets `getDaysSince = 999` and the
insufficient-data default model with `optimal_interval = 1`; since 999
exceeds every produced `optimal_interval` (which is at most 365) and here
exceeds both `1` and `1.5`, the item is counted in both `words_due` and
`words_overdue` by `getInsights`. -/
theorem c10_no_event_due_and_overdue (rexp rlog : ℚ → ℚ) (now : ℤ)
    (metrics : List WordLearningMetrics) (events : List LearningDataPoint)
    (m : WordLearningMetrics) (hm : m ∈ metrics)
    (h : ∀ dp ∈ events, matchesWord m.word_id dp = false) :
    getDaysSinceWord now m.word_id events = 999 ∧
    calculateForgettingCurve rexp rlog now m events = defaultModel m.word_id ∧
    (calculateForgettingCurve rexp rlog now m events).optimal_interval = 1 ∧
    (∀ m2 : WordLearningMetrics,
      (calculateForgettingCurve rexp rlog now m2 events).optimal_interval ≤ 365) ∧
    calculateForgettingCurve rexp rlog now m events ∈
      (metrics.map (fun mm => calculateForgettingCurve rexp rlog now mm events)).filter
        (isDue now events) ∧
    calculateForgettingCurve rexp rlog now m events ∈
      (metrics.map (fun mm => calculateForgettingCurve rexp rlog now mm events)).filter
        (isOverdue now events) := by
  have hdays : getDaysSinceWord now m.word_id events = 999 := by
    have hf : events.filter (matchesWord m.word_id) = [] := by
      rw [List.filter_eq_nil_iff]
      intro a ha
      simp [h a ha]
    rw [getDaysSinceWord, hf]
    rfl
  have hmodel : calculateForgettingCurve rexp rlog now m events = defaultModel m.word_id :=
    calculateForgettingCurve_no_match rexp rlog now m events h
  have hdue : isDue now events (calculateForgettingCurve rexp rlog now m events) = true := by
    rw [hmodel]
    simp only [isDue, defaultModel, hdays]
    norm_num
  have hover : isOverdue now events (calculateForgettingCurve rexp rlog now m events) = true := by
    rw [hmodel]
    simp only [isOverdue, defaultModel, hdays]
    norm_num
  have hmem : calculateForgettingCurve rexp rlog now m events ∈
      metrics.map (fun mm => calculateForgettingCurve rexp rlog now mm events) :=
    List.mem_map.mpr ⟨m, hm, rfl⟩
  refine ⟨hdays, hmodel, by rw [hmodel]; rfl,
    fun m2 => calculateForgettingCurve_optimal_le rexp rlog now m2 events,
    List.mem_filter.mpr ⟨hmem, hdue⟩, List.mem_filter.mpr ⟨hmem, hover⟩⟩

/-- C10 witness: the concrete one-item collection whose only event belongs to
a different word. -/
theorem c10_witness :
    getDaysSinceWord 0 exFreshMetrics.word_id [exOtherEvent] = 999 ∧
    calculateForgettingCurve unitExp zeroLog 0 exFreshMetrics [exOtherEvent] =
      defaultModel exFreshMetrics.word_id ∧
    (calculateForgettingCurve unitExp zeroLog 0 exFreshMetrics [exOtherEvent]).optimal_interval
      = 1 ∧
    (∀ m2 : WordLearningMetrics,
      (calculateForgettingCurve unitExp zeroLog 0 m2 [exOtherEvent]).optimal_interval ≤ 365) ∧
    calculateForgettingCurve unitExp zeroLog 0 exFreshMetrics [exOtherEvent] ∈
      ([exFreshMetrics].map
        (fun mm => calculateForgettingCurve unitExp zeroLog 0 mm [exOtherEvent])).filter
        (isDue 0 [exOtherEvent]) ∧
    calculateForgettingCurve unitExp zeroLog 0 exFreshMetrics [exOtherEvent] ∈
      ([exFreshMetrics].map
        (fun mm => calculateForgettingCurve unitExp zeroLog 0 mm [exOtherEvent])).filter
        (isOverdue 0 [exOtherEvent]) :=
  c10_no_event_due_and_overdue unitExp zeroLog 0 [exFreshMetrics] [exOtherEvent]
    exFreshMetrics (List.mem_singleton.mpr rfl)
    (by intro dp hdp; simp [exOtherEvent, matchesWord, exFreshMetrics] at hdp ⊢; simp [hdp])

/-- C7: `detectPatterns` returns the empty list whenever the event log has
fewer than 50 points, regardless of its content and of the session list; and
every pattern it returns, for any input, has confidence at least 0.7. -/
theorem c7_min_sample_and_confidence :
    (∀ now : ℤ, ∀ events : List LearningDataPoint, ∀ sessions : List StudySession,
      events.length < 50 → analyzeTemporalPatterns now events sessions = []) ∧
    (∀ now : ℤ, ∀ events : List LearningDataPoint, ∀ sessions : List StudySession,
      ∀ p ∈ analyzeTemporalPatterns now events sessions, (0.7 : ℚ) ≤ p.confidence) := by
  constructor
  · intro now events sessions h
    rw [analyzeTemporalPatterns, if_pos]
    show events.length < minDataPoints
    rw [minDataPoints]
    exact h
  · intro now events sessions p hp
    rw [analyzeTemporalPatterns] at hp
    split at hp
    · exact absurd hp (List.not_mem_nil p)
    · have := (List.mem_filter.mp hp).2
      have h07 : confidenceThreshold ≤ p.confidence := of_decide_eq_true this
      rw [confidenceThreshold] at h07
      exact h07

/-- C7 witness: an empty log produces no patterns. -/
theorem c7_witness : analyzeTemporalPatterns 0 [] [] = [] :=
  c7_min_sample_and_confidence.1 0 [] [] (by norm_num)

/-- C9: on the single-day dataset [2, 4, 6] the aggregate is one bucket with
count 3, sum 12, mean 4.0, min 2, max 6 and population stddev
sqrt(8/3) ≈ 1.633 (rounded to 1.633 for any square root accurate to four
decimals); and in general the buckets are sorted ascending by period key. -/
theorem c9_aggregate_stats (msqrt : ℚ → ℚ)
    (hs1 : (1.63295 : ℚ) ≤ msqrt (8/3)) (hs2 : msqrt (8/3) < (1.63305 : ℚ)) :
    aggregateDataByPeriod msqrt c9Points MetricType.accuracy_rate AggregationPeriod.day =
      [{ period := "1970-01-01", metric_type := MetricType.accuracy_rate, count := 3,
         sum := 12, average := 4, min := 2, max := 6, std_deviation := 1.633 }] ∧
    (∀ msqrt2 : ℚ → ℚ, ∀ pts : List LearningDataPoint, ∀ mt : MetricType,
      ∀ per : AggregationPeriod,
      (aggregateDataByPeriod msqrt2 pts mt per).Pairwise (fun a b => a.period ≤ b.period)) := by
  constructor
  · have hfil : c9Points.filter (fun point => point.metric_type == MetricType.accuracy_rate) =
        c9Points := by
      simp [c9Points]
    have hkeys : ((c9Points.map
        (fun p => getPeriodKey p.timestamp AggregationPeriod.day)).eraseDups) =
        [("1970-01-01" : String)] := by decide
    have hgrp : c9Points.filter
        (fun p => getPeriodKey p.timestamp AggregationPeriod.day == ("1970-01-01" : String)) =
        c9Points := by decide
    have h4 : round ((4 : ℚ) * 10000) = 40000 := round_eval _ _ (by norm_num) (by norm_num)
    have hsqrt : round (msqrt (8/3) * 10000) = 16330 :=
      round_eval _ _ (by nlinarith) (by nlinarith)
    have hne : ¬ (c9Points.length = 0) := by simp [c9Points]
    simp only [aggregateDataByPeriod]
    rw [if_neg hne, hfil, if_neg hne, hkeys]
    simp only [List.map_cons, List.map_nil, hgrp]
    simp only [c9Points, List.map_cons, List.map_nil, List.mergeSort_singleton]
    refine List.cons_eq_cons.mpr ⟨?_, rfl⟩
    simp only [bucketAggregate, TimeSeriesAggregate.mk.injEq]
    refine ⟨trivial, trivial, by norm_num, by norm_num, ?_, ?_, ?_, ?_⟩
    · rw [round4]
      norm_num [h4]
    · rw [listMin]
      norm_num [min_def]
    · rw [listMax]
      norm_num [max_def]
    · rw [round4]
      rw [show (((([2, 4, 6] : List ℚ).map
          (fun val => (val - ([2, 4, 6] : List ℚ).sum / (([2, 4, 6] : List ℚ).length : ℚ)) ^ 2)).sum) /
          (([2, 4, 6] : List ℚ).length : ℚ)) = 8/3 by norm_num]
      rw [hsqrt]
      norm_num
  · intro msqrt2 pts mt per
    simp only [aggregateDataByPeriod]
    split
    · exact List.Pairwise.nil
    · split
      · exact List.Pairwise.nil
      · refine List.Pairwise.imp ?_ (List.sorted_mergeSort ?_ ?_ _)
        · intro a b hab
          exact of_decide_eq_true hab
        · intro a b c hab hbc
          exact decide_eq_true (le_trans (of_decide_eq_true hab) (of_decide_eq_true hbc))
        · intro a b
          rcases le_total a.period b.period with h | h
          · simp [h]
          · simp [h]

/-- C9 witness: a square root function that is exact to four decimals at 8/3
satisfies the hypotheses, and the aggregate evaluates as stated. -/
theorem c9_witness :
    aggregateDataByPeriod (fun _ => 1.633) c9Points MetricType.accuracy_rate
      AggregationPeriod.day =
      [{ period := "1970-01-01", metric_type := MetricType.accuracy_rate, count := 3,
         sum := 12, average := 4, min := 2, max := 6, std_deviation := 1.633 }] :=
  (c9_aggregate_stats (fun _ => 1.633) (by norm_num) (by norm_num)).1
